import Mathlib

/-!
Shallow embedding of `sparkbot-starterkit/bot.js`: a dual-mode Cisco Spark
webhook dispatcher.  JSON values are modelled by an inductive type with JS
truthiness; each Express route handler is modelled as a function from the
parsed request body (and, for the REST-webhook POST handler, the outcome of
the one outbound HTTPS call) to the ordered trace of observable actions it
performs (HTTP responses sent, outbound requests issued, callback
invocations).
-/

namespace SparkBot

/-- JSON values, as delivered by `bodyParser.json()` and `JSON.parse`. -/
inductive JSON where
  | null : JSON
  | bool : Bool → JSON
  | num : Int → JSON
  | str : String → JSON
  | arr : List JSON → JSON
  | obj : List (String × JSON) → JSON

/-- JavaScript truthiness of a JSON value: `null`, `false`, `0` and `""` are
falsy; arrays and objects (even empty ones) are truthy. -/
def truthy : JSON → Bool
  | .null => false
  | .bool b => b
  | .num n => n != 0
  | .str s => s != ""
  | .arr _ => true
  | .obj _ => true

/-- JavaScript property access `v.k`: defined only on objects, `undefined`
(here `none`) otherwise. -/
def getField : JSON → String → Option JSON
  | .obj fields, k => fields.lookup k
  | _, _ => none

/-- Truthiness of a possibly-undefined value: `undefined` is falsy.
This is `!v.k` in the source, negated. -/
def truthyOpt : Option JSON → Bool
  | none => false
  | some v => truthy v

/-- JS strict equality `v === s` against a string literal, as used by the
`switch` statements on `resource` and `event` (bot.js lines 143-162). -/
def isStr (v : JSON) (s : String) : Bool :=
  match v with
  | .str t => t == s
  | _ => false

/-- `validateMessage` (bot.js lines 267-281): returns the payload when it has
truthy `id`, `personId`, `personEmail`, `roomId`, `created` and at least one
truthy `text` or `files` field, `undefined` (here `none`) otherwise. -/
def validateMessage (payload : JSON) : Option JSON :=
  if !truthy payload || !truthyOpt (getField payload "id")
      || !truthyOpt (getField payload "personId")
      || !truthyOpt (getField payload "personEmail")
      || !truthyOpt (getField payload "roomId")
      || !truthyOpt (getField payload "created") then
    none
  else if !truthyOpt (getField payload "text")
      && !truthyOpt (getField payload "files") then
    none
  else
    some payload

/-- `valideTrigger` (bot.js lines 243-252): returns the payload when `id`,
`name`, `resource` and `event` are all truthy, `undefined` otherwise.
Note: this function is defined in bot.js but never called by any handler. -/
def valideTrigger (payload : JSON) : Option JSON :=
  if !truthy payload || !truthyOpt (getField payload "id")
      || !truthyOpt (getField payload "name")
      || !truthyOpt (getField payload "resource")
      || !truthyOpt (getField payload "event") then
    none
  else
    some payload

/-- The distinct JSON response bodies produced by the handlers, one
constructor per `res....json({...})` template string in bot.js.  Dynamic
parts (message id, resource, event) are carried as arguments. -/
inductive Resp where
  /-- Body "This REST webhook is expecting an HTTP POST" (line 124). -/
  | expectingPostWebhook
  /-- Body "This outgoing integration is expecting an HTTP POST" (line 171). -/
  | expectingPostIntegration
  /-- health payload: status, start timestamp and active modes (lines 110-116) -/
  | healthStatus
  /-- Body "Wrong payload, a data+resource+event payload is expected..." (line 132). -/
  | wrongPayload
  /-- Body "This webhook does not support this resource/event type: messages/deleted" (line 153). -/
  | notSupportedMessagesEvent
  /-- Body "This webhook does not support this resource/event type: resource/event" (line 160). -/
  | notSupportedResource (resource event : JSON)
  /-- Body "could not retreive the message contents, no message id there !" (line 43). -/
  | noMessageId
  /-- Body "bad response when retreiving the text of the message with id:..." (line 67). -/
  | badResponse (messageId : JSON)
  /-- Body "could not retreive the text of the message with id:..." (line 94). -/
  | couldNotRetrieve (messageId : JSON)
  /-- Body "no content to process for new message with id:..." (line 78). -/
  | noContent (messageId : JSON)
  /-- Body "message is being processed by webhook" (line 83). -/
  | processing
  /-- Body "message processed by integration" (line 187). -/
  | processedByIntegration

/-- Observable actions of a handler, in the order they occur. -/
inductive Action where
  /-- `res.status(status).json(body)` -/
  | respond (status : Nat) (body : Resp)
  /-- the outbound `https.request` GET of `/v1/messages/{id}` (lines 50-56) -/
  | httpsRequest (messageId : JSON)
  /-- `self.handler(message)`: the registered callback is invoked (line 35) -/
  | invokeCallback (message : JSON)

/-- Outcome of the one outbound HTTPS call: either a complete response with
status code and JSON-parsed body, or a transport-level error (the error
event handler on the request, lines 92-96). -/
inductive HttpResult where
  | response (statusCode : Nat) (payload : JSON)
  | transportError

/-- `execute` (bot.js lines 33-37): invokes `self.handler` when one is
registered, does nothing otherwise. -/
def execute (message : JSON) (handlerRegistered : Bool) : List Action :=
  if handlerRegistered then [.invokeCallback message] else []

/-- `triggerMessageCreatedEvent` (bot.js lines 39-98).  Checks only
`triggerData.id` for truthiness; when present it issues the outbound GET and
dispatches on the outcome: transport error → 500; non-200 status → 500;
200 with a body failing `validateMessage` → 200 without callback; 200 with a
valid body → 200 then `execute`. -/
def triggerMessageCreatedEvent (triggerData : JSON) (handlerRegistered : Bool)
    (outbound : HttpResult) : List Action :=
  if !truthyOpt (getField triggerData "id") then
    [.respond 500 .noMessageId]
  else
    let messageId := (getField triggerData "id").getD .null
    .httpsRequest messageId ::
      match outbound with
      | .transportError => [.respond 500 (.couldNotRetrieve messageId)]
      | .response statusCode payload =>
        if statusCode != 200 then
          [.respond 500 (.badResponse messageId)]
        else
          match validateMessage payload with
          | none => [.respond 200 (.noContent messageId)]
          | some message => .respond 200 .processing :: execute message handlerRegistered

/-- The REST-webhook POST handler (bot.js lines 126-163): 400 when `body`,
`body.data`, `body.resource` or `body.event` is falsy, then a strict-equality
switch on `resource` and `event`; only ("messages", "created") is processed,
every other combination gets a 500. -/
def webhookPost (body : JSON) (handlerRegistered : Bool)
    (outbound : HttpResult) : List Action :=
  if !truthy body || !truthyOpt (getField body "data")
      || !truthyOpt (getField body "resource")
      || !truthyOpt (getField body "event") then
    [.respond 400 .wrongPayload]
  else
    let resource := (getField body "resource").getD .null
    let event := (getField body "event").getD .null
    let data := (getField body "data").getD .null
    if isStr resource "messages" then
      if isStr event "created" then
        triggerMessageCreatedEvent data handlerRegistered outbound
      else
        [.respond 500 .notSupportedMessagesEvent]
    else
      [.respond 500 (.notSupportedResource resource event)]

/-- The REST-webhook GET handler (bot.js lines 122-125). -/
def webhookGet : List Action := [.respond 400 .expectingPostWebhook]

/-- The outgoing-integration GET handler (bot.js lines 169-172). -/
def integrationGet : List Action := [.respond 400 .expectingPostIntegration]

/-- The health GET handler (bot.js lines 109-117). -/
def healthGet : List Action := [.respond 200 .healthStatus]

/-- Result of running the outgoing-integration POST handler: either a normal
trace, or an uncaught `ReferenceError` escaping the handler (the named
variable is read but not in scope). -/
inductive Outcome where
  | ok (trace : List Action)
  | uncaughtReferenceError (name : String)

/-- The outgoing-integration POST handler (bot.js lines 173-192).  When
`validateMessage` rejects the body, line 183 reads `originalResponse`, which
is a parameter of `triggerMessageCreatedEvent` and not in scope here and is
never assigned globally, so the branch throws an uncaught `ReferenceError`
instead of sending the intended 200 "message format is not supported". -/
def integrationPost (body : JSON) (handlerRegistered : Bool) : Outcome :=
  match validateMessage body with
  | none => .uncaughtReferenceError "originalResponse"
  | some message =>
      .ok (.respond 200 .processedByIntegration :: execute message handlerRegistered)

/-- The recognized configuration options of the `Webhook` constructor
(bot.js lines 17-28); every option may be absent. -/
structure Config where
  port : Option Nat := none
  webhookURI : Option String := none
  integrationURI : Option String := none
  healthURI : Option String := none
  token : Option String := none
  deriving Repr, DecidableEq

/-- Truthiness of a possibly-absent string option (`config.webhookURI` etc.):
absent and empty strings are falsy. -/
def strTruthy : Option String → Bool
  | none => false
  | some s => s != ""

/-- The routes the constructor registers: the health path, and the webhook
and integration paths when present. -/
structure Routes where
  health : String
  webhook : Option String
  integration : Option String
  deriving Repr, DecidableEq

/-- bot.js lines 100-105: only when no configuration object is supplied at
all does the constructor substitute `{ integrationURI: "/integration" }`. -/
def resolveConfig : Option Config → Config
  | none => { integrationURI := some "/integration" }
  | some c => c

/-- Route registration performed by the `Webhook` constructor (bot.js lines
100-193): health at `config.healthURI || "/ping"`, the REST-webhook route
iff `config.webhookURI` is truthy, the integration route iff
`config.integrationURI` is truthy. -/
def setupRoutes (config0 : Option Config) : Routes :=
  let config := resolveConfig config0
  { health := if strTruthy config.healthURI then config.healthURI.getD "/ping" else "/ping"
    webhook := if strTruthy config.webhookURI then config.webhookURI else none
    integration := if strTruthy config.integrationURI then config.integrationURI else none }

/-- Number of callback invocations in a trace. -/
def countInvocations (tr : List Action) : Nat :=
  tr.countP (fun a => match a with | .invokeCallback _ => true | _ => false)

/-- The two response bodies whose message text says the resource/event type
is not supported (bot.js lines 153 and 160). -/
def isNotSupported : Resp → Bool
  | .notSupportedMessagesEvent => true
  | .notSupportedResource _ _ => true
  | _ => false

/-- A fully valid sample Message payload, taken from the documentation
comment in bot.js (lines 207-217). -/
def sampleMessage : JSON :=
  .obj [("id", .str "46ef3f0a-e810-460c-ad37-c161adb48195"),
        ("personId", .str "49465565-f6db-432f-ab41-34b15f544a36"),
        ("personEmail", .str "matt@example.com"),
        ("roomId", .str "24aaa2aa-3dcc-11e5-a152-fe34819cdc9a"),
        ("text", .str "PROJECT UPDATE - A new project plan has been published"),
        ("created", .str "2015-10-18T14:26:16+00:00")]

/-- A sample REST-webhook notification body whose nested data carries only a
message id. -/
def sampleWebhookBody : JSON :=
  .obj [("resource", .str "messages"), ("event", .str "created"),
        ("data", .obj [("id", .str "m1")])]

/-- A sample payload lacking the `created` field, otherwise message-shaped. -/
def sampleMessageNoCreated : JSON :=
  .obj [("id", .str "m1"), ("personId", .str "p1"),
        ("personEmail", .str "matt@example.com"),
        ("roomId", .str "r1"), ("text", .str "hello")]

/-- A sample payload with all five required fields and a `files` field that
is the empty array, and no `text` field. -/
def emptyFilesMessage : JSON :=
  .obj [("id", .str "m1"), ("personId", .str "p1"),
        ("personEmail", .str "matt@example.com"),
        ("roomId", .str "r1"), ("created", .str "2015-10-18T14:26:16+00:00"),
        ("files", .arr [])]

/-- A sample payload carrying every Message field, where `id` is the empty
string. -/
def emptyIdMessage : JSON :=
  .obj [("id", .str ""), ("personId", .str "p1"),
        ("personEmail", .str "matt@example.com"),
        ("roomId", .str "r1"), ("created", .str "2015-10-18T14:26:16+00:00"),
        ("text", .str "hello")]

theorem truthy_of_getField_some {v w : JSON} {k : String}
    (h : getField v k = some w) : truthy v = true := by
  cases v <;> first | rfl | simp [getField] at h

theorem truthy_of_truthyOpt_getField {d : JSON} {k : String}
    (h : truthyOpt (getField d k) = true) : truthy d = true := by
  cases hg : getField d k with
  | none => rw [hg] at h; simp [truthyOpt] at h
  | some w => exact truthy_of_getField_some hg

theorem validateMessage_eq {p m : JSON} (h : validateMessage p = some m) :
    m = p := by
  unfold validateMessage at h
  split at h
  · simp at h
  · split at h
    · simp at h
    · exact (Option.some_inj.mp h).symm

theorem validateMessage_idem {p m : JSON} (h : validateMessage p = some m) :
    validateMessage m = some m := by
  have he := validateMessage_eq h
  rw [he]
  rw [he] at h
  exact h

theorem isStr_eq_true_iff (v : JSON) (s : String) :
    isStr v s = true ↔ v = .str s := by
  cases v <;> simp [isStr]

/-- When the body passes the envelope check and carries resource "messages"
and event "created", the POST handler reduces to
`triggerMessageCreatedEvent` on the nested data. -/
theorem webhookPost_messages_created (body d : JSON) (h : Bool)
    (ob : HttpResult)
    (hres : getField body "resource" = some (.str "messages"))
    (hev : getField body "event" = some (.str "created"))
    (hdata : getField body "data" = some d)
    (hd : truthy d = true) :
    webhookPost body h ob = triggerMessageCreatedEvent d h ob := by
  have hb : truthy body = true := truthy_of_getField_some hres
  have hcond : (!truthy body || !truthyOpt (getField body "data")
      || !truthyOpt (getField body "resource")
      || !truthyOpt (getField body "event")) = false := by
    rw [hres, hev, hdata, hb]
    simp only [truthyOpt]
    rw [hd]
    decide
  unfold webhookPost
  rw [hcond, hres, hev, hdata]
  simp [isStr]

/-- C1: For every POST to `webhookURI` with resource "messages", event
"created" and a data object with a truthy id, when the outbound enrichment
call returns status 200 with a body passing Message validation, the handler
trace is exactly the outbound request, then the 200 response to the original
caller, then the callback invocation with the validated Message: the 200 is
sent before the callback runs, and the callback is invoked exactly once. -/
theorem webhook_valid_enrichment_ack_then_single_callback
    (body d payload m : JSON)
    (hres : getField body "resource" = some (.str "messages"))
    (hev : getField body "event" = some (.str "created"))
    (hdata : getField body "data" = some d)
    (hid : truthyOpt (getField d "id") = true)
    (hval : validateMessage payload = some m) :
    webhookPost body true (.response 200 payload) =
      [.httpsRequest ((getField d "id").getD .null),
       .respond 200 .processing, .invokeCallback m] ∧
    countInvocations (webhookPost body true (.response 200 payload)) = 1 := by
  have hd : truthy d = true := truthy_of_truthyOpt_getField hid
  have hw := webhookPost_messages_created body d true (.response 200 payload)
    hres hev hdata hd
  rw [hw]
  unfold triggerMessageCreatedEvent
  rw [hid]
  simp [hval, execute, countInvocations, List.countP_cons, List.countP_nil]

/-- Witness for C1 at a concrete notification body and enrichment response. -/
theorem webhook_valid_enrichment_ack_then_single_callback_witness :
    webhookPost sampleWebhookBody true (.response 200 sampleMessage) =
      [.httpsRequest (.str "m1"), .respond 200 .processing,
       .invokeCallback sampleMessage] ∧
    countInvocations (webhookPost sampleWebhookBody true
      (.response 200 sampleMessage)) = 1 :=
  webhook_valid_enrichment_ack_then_single_callback sampleWebhookBody
    (.obj [("id", .str "m1")]) sampleMessage sampleMessage rfl rfl rfl rfl rfl

/-- Any callback invocation appearing in a `triggerMessageCreatedEvent`
trace carries a payload fixed by `validateMessage`. -/
theorem mem_trigger_validated {d : JSON} {h : Bool} {ob : HttpResult}
    {m : JSON}
    (hm : Action.invokeCallback m ∈ triggerMessageCreatedEvent d h ob) :
    validateMessage m = some m := by
  cases ob with
  | transportError =>
    unfold triggerMessageCreatedEvent at hm
    split at hm
    · simp at hm
    · simp at hm
  | response code payload =>
    unfold triggerMessageCreatedEvent at hm
    split at hm
    · simp at hm
    · dsimp only at hm
      rw [List.mem_cons] at hm
      rcases hm with h1 | hm
      · simp at h1
      · split at hm
        · simp at hm
        · rcases hv : validateMessage payload with _ | msg
          · rw [hv] at hm
            simp at hm
          · rw [hv] at hm
            rw [List.mem_cons] at hm
            rcases hm with h2 | hm
            · simp at h2
            · unfold execute at hm
              split at hm
              · rw [List.mem_singleton] at hm
                have hmm : m = msg := by
                  injection hm
                rw [hmm]
                exact validateMessage_idem hv
              · simp at hm

/-- C2: on every route, the registered callback is only invoked with a
payload that `validateMessage` accepted (and returned unchanged): any
`invokeCallback` action in a handler trace carries a message that passes
Message validation, and the GET and health handlers never invoke it. -/
theorem callback_only_receives_validated_messages
    (body : JSON) (h : Bool) (ob : HttpResult) (m : JSON) (tr : List Action) :
    (Action.invokeCallback m ∈ webhookPost body h ob →
      validateMessage m = some m) ∧
    (integrationPost body h = .ok tr → Action.invokeCallback m ∈ tr →
      validateMessage m = some m) ∧
    Action.invokeCallback m ∉ webhookGet ∧
    Action.invokeCallback m ∉ integrationGet ∧
    Action.invokeCallback m ∉ healthGet := by
  refine ⟨?_, ?_, ?_, ?_, ?_⟩
  · intro hm
    unfold webhookPost at hm
    split at hm
    · simp at hm
    · dsimp only at hm
      split at hm
      · split at hm
        · exact mem_trigger_validated hm
        · simp at hm
      · simp at hm
  · intro hok hm
    unfold integrationPost at hok
    rcases hv : validateMessage body with _ | msg
    · rw [hv] at hok
      simp at hok
    · rw [hv] at hok
      injection hok with he
      rw [← he] at hm
      rw [List.mem_cons] at hm
      rcases hm with h1 | hm
      · simp at h1
      · unfold execute at hm
        split at hm
        · rw [List.mem_singleton] at hm
          have hmm : m = msg := by
            injection hm
          rw [hmm]
          exact validateMessage_idem hv
        · simp at hm
  · simp [webhookGet]
  · simp [integrationGet]
  · simp [healthGet]

/-- Witness for C2: the payload handed to the callback in the concrete valid
run of the REST-webhook handler passes Message validation. -/
theorem callback_only_receives_validated_messages_witness :
    validateMessage sampleMessage = some sampleMessage :=
  (callback_only_receives_validated_messages sampleWebhookBody true
    (.response 200 sampleMessage) sampleMessage []).1
    (by
      rw [show webhookPost sampleWebhookBody true (.response 200 sampleMessage) =
        [.httpsRequest (.str "m1"), .respond 200 .processing,
         .invokeCallback sampleMessage] from rfl]
      simp)

/-- C3 (code defect): a POST to `integrationURI` whose body fails Message
validation does not produce the documented 200 "message format is not
supported" response: the handler reads the out-of-scope variable
`originalResponse` (bot.js line 183) and throws an uncaught ReferenceError,
whether or not a callback is registered; the callback is not invoked. -/
theorem integration_invalid_body_reference_error :
    validateMessage sampleMessageNoCreated = none ∧
    integrationPost sampleMessageNoCreated true =
      .uncaughtReferenceError "originalResponse" ∧
    integrationPost sampleMessageNoCreated false =
      .uncaughtReferenceError "originalResponse" := ⟨rfl, rfl, rfl⟩

/-- C4 counterexample: the nested data of `sampleWebhookBody` fails Trigger
validation (`valideTrigger` rejects it: name, resource and event are all
missing), yet the dispatcher does not respond 500: it issues the outbound
call and processes the event, because `valideTrigger` is never invoked and
only `data.id` is checked. -/
theorem webhook_data_not_validated_as_trigger :
    valideTrigger (.obj [("id", .str "m1")]) = none ∧
    webhookPost sampleWebhookBody true (.response 200 sampleMessage) =
      [.httpsRequest (.str "m1"), .respond 200 .processing,
       .invokeCallback sampleMessage] := ⟨rfl, rfl⟩

/-- C4 amended: for a POST dispatched as ("messages", "created"), only the
truthiness of `data.id` is checked: when it is falsy the dispatcher responds
500 without issuing any outbound HTTPS call, and when it is truthy the
outbound call is issued immediately, regardless of the remaining Trigger
fields. -/
theorem webhook_trigger_checks_only_data_id
    (body d : JSON) (h : Bool) (ob : HttpResult)
    (hres : getField body "resource" = some (.str "messages"))
    (hev : getField body "event" = some (.str "created"))
    (hdata : getField body "data" = some d)
    (hd : truthy d = true) :
    (truthyOpt (getField d "id") = false →
      webhookPost body h ob = [.respond 500 .noMessageId] ∧
      ∀ mid, Action.httpsRequest mid ∉ webhookPost body h ob) ∧
    (truthyOpt (getField d "id") = true →
      (webhookPost body h ob).head? =
        some (.httpsRequest ((getField d "id").getD .null))) := by
  have hw := webhookPost_messages_created body d h ob hres hev hdata hd
  constructor
  · intro hid
    rw [hw]
    unfold triggerMessageCreatedEvent
    rw [hid]
    simp
  · intro hid
    rw [hw]
    unfold triggerMessageCreatedEvent
    rw [hid]
    simp

/-- A sample notification whose nested data has no id field. -/
def noIdWebhookBody : JSON :=
  .obj [("resource", .str "messages"), ("event", .str "created"),
        ("data", .obj [("name", .str "w1")])]

/-- Witness for the amended C4 at concrete inputs: with no data id the
handler responds 500 and issues no outbound call; with an id present the
first action is the outbound call. -/
theorem webhook_trigger_checks_only_data_id_witness :
    (webhookPost noIdWebhookBody true .transportError =
      [.respond 500 .noMessageId] ∧
     ∀ mid, Action.httpsRequest mid ∉
       webhookPost noIdWebhookBody true .transportError) ∧
    (webhookPost sampleWebhookBody true .transportError).head? =
      some (.httpsRequest (.str "m1")) := by
  constructor
  · exact (webhook_trigger_checks_only_data_id noIdWebhookBody
      (.obj [("name", .str "w1")]) true .transportError rfl rfl rfl rfl).1 rfl
  · exact (webhook_trigger_checks_only_data_id sampleWebhookBody
      (.obj [("id", .str "m1")]) true .transportError rfl rfl rfl rfl).2 rfl

/-- C5 counterexample: a configuration object that sets only `port` has
neither `webhookURI` nor `integrationURI`, yet the constructor registers no
integration route at all: the "/integration" default applies only when the
configuration object itself is absent (bot.js lines 100-104). -/
theorem config_without_uris_gets_no_integration_route :
    ({ port := some 8080 } : Config).webhookURI = none ∧
    ({ port := some 8080 } : Config).integrationURI = none ∧
    setupRoutes (some { port := some 8080 }) =
      { health := "/ping", webhook := none, integration := none } :=
  ⟨rfl, rfl, rfl⟩

/-- C5 amended: the "/integration" default applies exactly when no
configuration object is supplied: `setupRoutes none` registers the
integration route at "/integration" (plus health at "/ping") and no webhook
route, while any supplied configuration with neither URI set registers
neither route. -/
theorem integration_default_only_when_config_absent :
    setupRoutes none =
      { health := "/ping", webhook := none,
        integration := some "/integration" } ∧
    ∀ c : Config, c.webhookURI = none → c.integrationURI = none →
      (setupRoutes (some c)).webhook = none ∧
      (setupRoutes (some c)).integration = none := by
  constructor
  · rfl
  · intro c h1 h2
    constructor
    · simp [setupRoutes, resolveConfig, h1, strTruthy]
    · simp [setupRoutes, resolveConfig, h2, strTruthy]

/-- Witness for the amended C5 at a concrete configuration. -/
theorem integration_default_only_when_config_absent_witness :
    (setupRoutes (some { port := some 8080 })).webhook = none ∧
    (setupRoutes (some { port := some 8080 })).integration = none :=
  integration_default_only_when_config_absent.2 { port := some 8080 } rfl rfl

/-- C6: for a POST dispatched as ("messages", "created") with a truthy data
id, a non-200 enrichment response makes the dispatcher respond 500 ("bad
response") to the original caller after the outbound call, and the callback
is not invoked. -/
theorem webhook_enrichment_non200_responds_500
    (body d payload : JSON) (h : Bool) (code : Nat)
    (hres : getField body "resource" = some (.str "messages"))
    (hev : getField body "event" = some (.str "created"))
    (hdata : getField body "data" = some d)
    (hid : truthyOpt (getField d "id") = true)
    (hcode : code ≠ 200) :
    webhookPost body h (.response code payload) =
      [.httpsRequest ((getField d "id").getD .null),
       .respond 500 (.badResponse ((getField d "id").getD .null))] ∧
    ∀ m, Action.invokeCallback m ∉
      webhookPost body h (.response code payload) := by
  have hd : truthy d = true := truthy_of_truthyOpt_getField hid
  have hw := webhookPost_messages_created body d h (.response code payload)
    hres hev hdata hd
  rw [hw]
  unfold triggerMessageCreatedEvent
  rw [hid]
  simp [hcode]

/-- Witness for C6: a 404 from the enrichment call yields a 500 and no
callback invocation. -/
theorem webhook_enrichment_non200_responds_500_witness :
    webhookPost sampleWebhookBody true (.response 404 sampleMessage) =
      [.httpsRequest (.str "m1"),
       .respond 500 (.badResponse (.str "m1"))] ∧
    ∀ m, Action.invokeCallback m ∉
      webhookPost sampleWebhookBody true (.response 404 sampleMessage) :=
  webhook_enrichment_non200_responds_500 sampleWebhookBody
    (.obj [("id", .str "m1")]) sampleMessage true 404
    rfl rfl rfl rfl (by decide)

/-- C7: for a POST dispatched as ("messages", "created") with a truthy data
id, a 200 enrichment response whose body fails Message validation makes the
dispatcher respond 200 ("no content to process"), and the callback is not
invoked. -/
theorem webhook_enrichment_invalid_body_responds_200
    (body d payload : JSON) (h : Bool)
    (hres : getField body "resource" = some (.str "messages"))
    (hev : getField body "event" = some (.str "created"))
    (hdata : getField body "data" = some d)
    (hid : truthyOpt (getField d "id") = true)
    (hval : validateMessage payload = none) :
    webhookPost body h (.response 200 payload) =
      [.httpsRequest ((getField d "id").getD .null),
       .respond 200 (.noContent ((getField d "id").getD .null))] ∧
    ∀ m, Action.invokeCallback m ∉
      webhookPost body h (.response 200 payload) := by
  have hd : truthy d = true := truthy_of_truthyOpt_getField hid
  have hw := webhookPost_messages_created body d h (.response 200 payload)
    hres hev hdata hd
  rw [hw]
  unfold triggerMessageCreatedEvent
  rw [hid]
  simp [hval]

/-- Witness for C7: a 200 enrichment response with an empty-object body
yields a 200 and no callback invocation. -/
theorem webhook_enrichment_invalid_body_responds_200_witness :
    webhookPost sampleWebhookBody true (.response 200 (.obj [])) =
      [.httpsRequest (.str "m1"),
       .respond 200 (.noContent (.str "m1"))] ∧
    ∀ m, Action.invokeCallback m ∉
      webhookPost sampleWebhookBody true (.response 200 (.obj [])) :=
  webhook_enrichment_invalid_body_responds_200 sampleWebhookBody
    (.obj [("id", .str "m1")]) (.obj []) true rfl rfl rfl rfl rfl

/-- C8: for a POST to `webhookURI` whose body passes the envelope check but
whose (resource, event) pair is not ("messages", "created"), the dispatcher
responds 500 with one of the two "does not support this resource/event
type" bodies, and the callback is not invoked. -/
theorem webhook_unsupported_resource_event_responds_500
    (body : JSON) (h : Bool) (ob : HttpResult)
    (hb : truthy body = true)
    (hd : truthyOpt (getField body "data") = true)
    (hr : truthyOpt (getField body "resource") = true)
    (he : truthyOpt (getField body "event") = true)
    (hne : ¬(getField body "resource" = some (.str "messages") ∧
             getField body "event" = some (.str "created"))) :
    (∃ r, webhookPost body h ob = [.respond 500 r] ∧
      isNotSupported r = true) ∧
    ∀ m, Action.invokeCallback m ∉ webhookPost body h ob := by
  have hcond : (!truthy body || !truthyOpt (getField body "data")
      || !truthyOpt (getField body "resource")
      || !truthyOpt (getField body "event")) = false := by
    rw [hb, hd, hr, he]
    rfl
  rcases hrv : getField body "resource" with _ | rv
  · rw [hrv] at hr
    simp [truthyOpt] at hr
  · rcases hew : getField body "event" with _ | ev
    · rw [hew] at he
      simp [truthyOpt] at he
    · have key : ∃ r, webhookPost body h ob = [.respond 500 r] ∧
          isNotSupported r = true := by
        unfold webhookPost
        rw [hcond, hrv, hew]
        simp only [Option.getD]
        by_cases hm : isStr rv "messages" = true
        · by_cases hc : isStr ev "created" = true
          · exact absurd ⟨by rw [hrv, (isStr_eq_true_iff rv "messages").mp hm],
              by rw [hew, (isStr_eq_true_iff ev "created").mp hc]⟩ hne
          · refine ⟨.notSupportedMessagesEvent, ?_, rfl⟩
            rw [Bool.not_eq_true] at hc
            rw [hm, hc]
            simp
        · refine ⟨.notSupportedResource rv ev, ?_, rfl⟩
          rw [Bool.not_eq_true] at hm
          rw [hm]
          simp
      rcases key with ⟨r, htr, hns⟩
      refine ⟨⟨r, htr, hns⟩, ?_⟩
      intro m
      rw [htr]
      simp

/-- A sample notification body for a ("messages", "deleted") event. -/
def sampleDeletedBody : JSON :=
  .obj [("resource", .str "messages"), ("event", .str "deleted"),
        ("data", .obj [("id", .str "m1")])]

/-- Witness for C8 at a concrete ("messages", "deleted") notification. -/
theorem webhook_unsupported_resource_event_responds_500_witness :
    (∃ r, webhookPost sampleDeletedBody true .transportError =
      [.respond 500 r] ∧ isNotSupported r = true) ∧
    ∀ m, Action.invokeCallback m ∉
      webhookPost sampleDeletedBody true .transportError :=
  webhook_unsupported_resource_event_responds_500 sampleDeletedBody true
    .transportError rfl rfl rfl rfl
    (fun hcon => by
      have h1 : (some (JSON.str "deleted") : Option JSON) =
          some (JSON.str "created") := hcon.2
      injection h1 with h2
      injection h2 with h3
      exact absurd h3 (by decide))

/-- C9 counterexample: `emptyIdMessage` carries every field named by the
claim (id, personId, personEmail, roomId, created, and text), yet
`validateMessage` rejects it, because its id value is the empty string and
the code tests presence by truthiness. -/
theorem message_with_all_fields_rejected :
    (∀ f, f ∈ ["id", "personId", "personEmail", "roomId", "created", "text"] →
      (getField emptyIdMessage f).isSome = true) ∧
    validateMessage emptyIdMessage = none := by
  constructor
  · decide
  · rfl

/-- C9 amended: Message validation rejects every payload missing any of the
five required fields and every payload with neither a text nor a files
field; conversely, a payload whose five required fields are all present
with truthy values and which has a truthy text or files field is returned
unchanged as valid. -/
theorem validateMessage_field_conditions (p : JSON) :
    ((getField p "id" = none ∨ getField p "personId" = none ∨
      getField p "personEmail" = none ∨ getField p "roomId" = none ∨
      getField p "created" = none) → validateMessage p = none) ∧
    ((getField p "text" = none ∧ getField p "files" = none) →
      validateMessage p = none) ∧
    (truthyOpt (getField p "id") = true →
     truthyOpt (getField p "personId") = true →
     truthyOpt (getField p "personEmail") = true →
     truthyOpt (getField p "roomId") = true →
     truthyOpt (getField p "created") = true →
     (truthyOpt (getField p "text") = true ∨
      truthyOpt (getField p "files") = true) →
     validateMessage p = some p) := by
  refine ⟨?_, ?_, ?_⟩
  · intro hmiss
    unfold validateMessage
    rcases hmiss with hx | hx | hx | hx | hx <;> rw [hx] <;> simp [truthyOpt]
  · intro hnone
    unfold validateMessage
    rw [hnone.1, hnone.2]
    simp [truthyOpt]
  · intro h1 h2 h3 h4 h5 h6
    have hp : truthy p = true := truthy_of_truthyOpt_getField h1
    unfold validateMessage
    rw [hp, h1, h2, h3, h4, h5]
    rcases h6 with hx | hx <;> rw [hx] <;> simp

/-- Witness for the amended C9: the empty object is rejected and the sample
Message (truthy fields, text present) is returned as valid. -/
theorem validateMessage_field_conditions_witness :
    validateMessage (.obj []) = none ∧
    validateMessage sampleMessage = some sampleMessage :=
  ⟨(validateMessage_field_conditions (.obj [])).1 (Or.inl rfl),
   (validateMessage_field_conditions sampleMessage).2.2
     rfl rfl rfl rfl rfl (Or.inl rfl)⟩

/-- A sample payload whose five required fields are truthy and whose text is
the empty string, with no files field. -/
def emptyTextMessage : JSON :=
  .obj [("id", .str "m1"), ("personId", .str "p1"),
        ("personEmail", .str "matt@example.com"),
        ("roomId", .str "r1"), ("created", .str "2015-10-18T14:26:16+00:00"),
        ("text", .str "")]

/-- C10: field presence is tested by truthiness: any payload in which a
required field holds the empty string is rejected; a text field equal to
the empty string does not count as text being present (so with no files
field the payload is rejected); but a files field holding the empty array
is truthy, so a payload with files equal to the empty list and no text
passes validation. -/
theorem validateMessage_truthiness (p : JSON) :
    (getField p "id" = some (.str "") → validateMessage p = none) ∧
    (getField p "personId" = some (.str "") → validateMessage p = none) ∧
    (getField p "personEmail" = some (.str "") → validateMessage p = none) ∧
    (getField p "roomId" = some (.str "") → validateMessage p = none) ∧
    (getField p "created" = some (.str "") → validateMessage p = none) ∧
    (getField p "text" = some (.str "") → getField p "files" = none →
      validateMessage p = none) ∧
    validateMessage emptyFilesMessage = some emptyFilesMessage := by
  refine ⟨?_, ?_, ?_, ?_, ?_, ?_, rfl⟩
  · intro hx
    unfold validateMessage
    rw [hx]
    simp [truthyOpt, truthy]
  · intro hx
    unfold validateMessage
    rw [hx]
    simp [truthyOpt, truthy]
  · intro hx
    unfold validateMessage
    rw [hx]
    simp [truthyOpt, truthy]
  · intro hx
    unfold validateMessage
    rw [hx]
    simp [truthyOpt, truthy]
  · intro hx
    unfold validateMessage
    rw [hx]
    simp [truthyOpt, truthy]
  · intro h1 h2
    unfold validateMessage
    rw [h1, h2]
    simp [truthyOpt, truthy]

/-- Witness for C10: a payload with an empty-string id is rejected, and a
payload with an empty text and no files is rejected. -/
theorem validateMessage_truthiness_witness :
    validateMessage emptyIdMessage = none ∧
    validateMessage emptyTextMessage = none :=
  ⟨(validateMessage_truthiness emptyIdMessage).1 rfl,
   (validateMessage_truthiness emptyTextMessage).2.2.2.2.2.1 rfl rfl⟩

end SparkBot
